import Mathlib

/-!
Verification of the AI-OCR benchmark repository against its specification.

The repository ships the benchmark methodology document, an integration
guide, and a React metrics dashboard whose components carry the published
benchmark figures as literal data.  The definitions below embed that data
and the dashboard's rendering logic; the Python core referenced by the
documentation (orchestrator, pipelines, evaluator, aggregator) is not part
of the repository tree, so those components are modelled from the
specification where a claim depends on them.

All decimal quantities are embedded as exact rationals.
-/

namespace AIOCR

/-! ### Quality scores and the overall-score formula (methodology doc, dashboard radar data) -/

/-- One row of the dashboard's quality radar data: a category name and the
two variants' scores in percent (`mockBenchmarkData.qualityRadar`). -/
structure RadarRow where
  category : String
  deepseek : ℚ
  lighton : ℚ
deriving DecidableEq

/-- The stored quality figures, exactly as in `mockBenchmarkData.qualityRadar`
and the methodology document's summary table. -/
def qualityRadar : List RadarRow :=
  [⟨"Faithfulness", 94.2, 95.1⟩,
   ⟨"Relevancy", 97.1, 96.8⟩,
   ⟨"Precision", 92.5, 93.2⟩,
   ⟨"Recall", 91.3, 94.5⟩,
   ⟨"Overall", 93.8, 94.9⟩]

/-- Look up a radar row by category name. -/
def radarRow (cat : String) : Option RadarRow :=
  qualityRadar.find? (fun row => row.category == cat)

/-- The overall-score formula documented in the methodology document
("Weighted average: Faithfulness (30%) + Relevancy (30%) + Precision (20%)
+ Recall (20%)"). -/
def weightedOverall (f r p c : ℚ) : ℚ :=
  3/10 * f + 3/10 * r + 2/10 * p + 2/10 * c

/-- The unweighted mean of the four component scores. -/
def meanOfFour (f r p c : ℚ) : ℚ := (f + r + p + c) / 4

/-! ### Latency breakdowns (methodology doc §Latency Performance, dashboard data) -/

/-- A per-stage duration map: stage name to elapsed milliseconds. -/
def sumStages (stages : List (String × ℕ)) : ℕ :=
  (stages.map (fun s => s.2)).sum

/-- DeepSeek latency breakdown as printed in the methodology document:
"1,240ms (720ms OCR + 120ms compression + 400ms LLM)". -/
def deepseekStagesDoc : List (String × ℕ) :=
  [("OCR", 720), ("compression", 120), ("LLM", 400)]

/-- LightOn latency breakdown as printed in the methodology document:
"2,850ms (850ms OCR + 450ms chunking + 550ms embedding + 1,000ms retrieval
+ 1,550ms LLM)". -/
def lightonStagesDoc : List (String × ℕ) :=
  [("OCR", 850), ("chunking", 450), ("embedding", 550), ("retrieval", 1000), ("LLM", 1550)]

/-- Total end-to-end latencies reported for the two pipelines (ms). -/
def deepseekTotalMs : ℕ := 1240

/-- LightOn total end-to-end latency (ms). -/
def lightonTotalMs : ℕ := 2850

/-- DeepSeek stage-duration map from the dashboard
(`mockBenchmarkData.latencyBreakdown`). -/
def deepseekStagesDash : List (String × ℕ) :=
  [("OCR", 720), ("Processing", 120), ("LLM", 400)]

/-- LightOn stage-duration map from the dashboard
(`mockBenchmarkData.latencyBreakdown`). -/
def lightonStagesDash : List (String × ℕ) :=
  [("OCR", 850), ("Processing", 450), ("LLM", 1550)]

/-- Two millisecond quantities agree within a tolerance. -/
def withinMs (a b tol : ℕ) : Prop := a ≤ b + tol ∧ b ≤ a + tol

instance (a b tol : ℕ) : Decidable (withinMs a b tol) := by
  unfold withinMs; infer_instance

/-! ### Token compression figures (methodology doc §Token Compression, dashboard data) -/

/-- The methodology document's token-compression analysis block: the
reported compression figure, the original and compressed token counts, and
the per-document token saving it derives from them. -/
structure CompressionAnalysis where
  reportedFactor : ℚ
  originalTokens : ℚ
  compressedTokens : ℚ
  tokensSavedPerDoc : ℚ
deriving DecidableEq

/-- Values from the methodology document: "4.2x compression ratio ...
Original document: ~1,800 tokens; Compressed representation: ~450 tokens;
Tokens saved: 1,350 per document". -/
def tokenCompressionAnalysis : CompressionAnalysis :=
  ⟨4.2, 1800, 450, 1350⟩

/-- One row of the dashboard's efficiency comparison
(`mockBenchmarkData.efficiency`). -/
structure EffRow where
  metric : String
  deepseek : ℚ
  lighton : ℚ
  unitLabel : String
deriving DecidableEq

/-- The dashboard's efficiency data, exactly as stored. -/
def efficiencyData : List EffRow :=
  [⟨"Compression Ratio", 4.2, 1.0, "x"⟩,
   ⟨"Latency", 1240, 2850, "ms"⟩,
   ⟨"Cost per Doc", 0.0043, 0.0108, "$"⟩,
   ⟨"Tokens Used", 450, 1800, "tokens"⟩]

/-- Look up an efficiency row by metric name. -/
def effRow (m : String) : Option EffRow :=
  efficiencyData.find? (fun row => row.metric == m)

/-! ### The final report's summary table (methodology doc §Summary Statistics) -/

/-- Which variant a summary row declares the winner. -/
inductive Winner
  | deepseek
  | lighton
deriving DecidableEq

/-- Directionality of a metric: whether larger values are better. -/
inductive Direction
  | higherBetter
  | lowerBetter
deriving DecidableEq

/-- One row of the report's summary-statistics table: metric name, the two
variants' means, the printed difference (in percent), and the winner tag. -/
structure SummaryRow where
  metric : String
  deepseek : ℚ
  lighton : ℚ
  storedDelta : ℚ
  winner : Winner
deriving DecidableEq

/-- The summary-statistics table of the methodology document, exactly as
printed (differences are the percent figures of the "Difference" column). -/
def summaryTable : List SummaryRow :=
  [⟨"Compression Ratio", 4.2, 1.0, 320, .deepseek⟩,
   ⟨"Latency (ms)", 1240, 2850, -57, .deepseek⟩,
   ⟨"Cost per Document", 0.0043, 0.0108, -60, .deepseek⟩,
   ⟨"Token Count", 450, 1800, -75, .deepseek⟩,
   ⟨"Faithfulness", 94.2, 95.1, -0.9, .lighton⟩,
   ⟨"Relevancy", 97.1, 96.8, 0.3, .deepseek⟩,
   ⟨"Context Precision", 92.5, 93.2, -0.7, .lighton⟩,
   ⟨"Context Recall", 91.3, 94.5, -3.2, .lighton⟩,
   ⟨"Overall Quality", 93.8, 94.9, -1.1, .lighton⟩]

/-- Look up a summary row by metric name. -/
def summaryRow (m : String) : Option SummaryRow :=
  summaryTable.find? (fun row => row.metric == m)

/-- Modelled from the spec: the Report Aggregator's directionality table
(the aggregator source `src/generate_benchmark_report.py` is referenced by
the documentation but absent from the tree).  Lower is better for latency,
cost and token counts; higher is better for compression and the quality
scores. -/
def directionality (m : String) : Direction :=
  if m == "Latency (ms)" || m == "Cost per Document" || m == "Token Count" then
    .lowerBetter
  else
    .higherBetter

/-- The winner tag determined by a metric's directionality and the two
variants' means (DeepSeek is variant A, LightOn is variant B). -/
def dirWinner (d : Direction) (a b : ℚ) : Winner :=
  match d with
  | .higherBetter => if b < a then .deepseek else .lighton
  | .lowerBetter => if a < b then .deepseek else .lighton

/-- Percentage delta between variant mean `a` and baseline mean `b`,
computed as (A − B)/B and expressed in percent. -/
def pctDelta (a b : ℚ) : ℚ := (a - b) / b * 100

/-- The metric names of the summary table that are quality scores. -/
def qualityMetricNames : List String :=
  ["Faithfulness", "Relevancy", "Context Precision", "Context Recall", "Overall Quality"]

/-! ### Dashboard components (EfficiencyMetrics.jsx, EffectivenessMetrics.jsx,
ResourceMetrics, TimeSeriesChart.jsx) -/

/-- The icon chosen for a trend indicator (lucide TrendingUp / TrendingDown). -/
inductive TrendIcon
  | trendingUp
  | trendingDown
deriving DecidableEq

/-- The constant mock object of EfficiencyMetrics.jsx (`mockEfficiencyData`),
captured once with useState.  The first field is the stored token-compression
figure. -/
structure EfficiencyMockData where
  tokenCompressionValue : ℚ
  tokenCompressionTrend : ℚ
  latencyMs : ℚ
  latencyTrend : ℚ
  costPerDoc : ℚ
  costTrend : ℚ
  compressionHistory : List (String × ℚ)
  latencyBreakdown : List (String × ℚ)
  costBreakdown : List (String × ℚ)
deriving DecidableEq

/-- The literal mock data of EfficiencyMetrics.jsx. -/
def mockEfficiencyData : EfficiencyMockData :=
  { tokenCompressionValue := 4.2
    tokenCompressionTrend := 5.3
    latencyMs := 1240
    latencyTrend := -8.2
    costPerDoc := 0.0045
    costTrend := -12.5
    compressionHistory :=
      [("00:00", 3.8), ("04:00", 3.9), ("08:00", 4.0), ("12:00", 4.1),
       ("16:00", 4.2), ("20:00", 4.3), ("23:59", 4.2)]
    latencyBreakdown := [("OCR Processing", 720), ("LLM Processing", 520)]
    costBreakdown := [("Gemini API", 0.0025), ("GPT API", 0.0020)] }

/-- MetricCard's trend colour (EfficiencyMetrics.jsx line 32-33):
`isPositive = trend > 0; trendColor = isPositive ? text-red-600 :
text-green-600`. -/
def metricCardTrendColor (trend : ℚ) : String :=
  if 0 < trend then "text-red-600" else "text-green-600"

/-- MetricCard's trend icon: TrendingUp when the trend is positive,
TrendingDown otherwise. -/
def metricCardTrendIcon (trend : ℚ) : TrendIcon :=
  if 0 < trend then .trendingUp else .trendingDown

/-- The observable content of one rendered MetricCard. -/
structure MetricCardView where
  label : String
  value : ℚ
  unitLabel : String
  trendColor : String
  trendIcon : TrendIcon
  trendMagnitude : ℚ
  trendLabel : String
deriving DecidableEq

/-- Render one MetricCard from its props. -/
def metricCard (label : String) (value : ℚ) (u : String) (trend : ℚ)
    (tl : String) : MetricCardView :=
  ⟨label, value, u, metricCardTrendColor trend, metricCardTrendIcon trend, |trend|, tl⟩

/-- The observable content of the EfficiencyMetrics component: three metric
cards, and the chart data when expanded. -/
structure EfficiencyView where
  cards : List MetricCardView
  expandedCharts : Option (List (String × ℚ) × List (String × ℚ) × List (String × ℚ))
deriving DecidableEq

/-- EfficiencyMetrics({cluster, expanded}): the displayed data comes from the
mock object captured in useState; the `cluster` prop is never read. -/
def renderEfficiencyMetrics (cluster : String) (expanded : Bool) : EfficiencyView :=
  let data := mockEfficiencyData
  { cards :=
      [metricCard "Token Compression Ratio" data.tokenCompressionValue "x"
        data.tokenCompressionTrend "improvement",
       metricCard "End-to-End Latency" data.latencyMs "ms" data.latencyTrend "faster",
       metricCard "Cost per Document" data.costPerDoc "USD" data.costTrend "cheaper"]
    expandedCharts :=
      if expanded then
        some (data.compressionHistory, data.latencyBreakdown, data.costBreakdown)
      else none }

/-- The observable content of one EffectivenessCard: EffectivenessMetrics.jsx
colours the trend green when positive and red otherwise. -/
structure EffectivenessCardView where
  label : String
  value : ℚ
  unitLabel : String
  trendColor : String
  trendShown : ℚ
  trendLabel : String
  status : String
deriving DecidableEq

/-- Render one EffectivenessCard from its props. -/
def effectivenessCard (label : String) (value : ℚ) (u : String) (trend : ℚ)
    (tl status : String) : EffectivenessCardView :=
  ⟨label, value, u, if 0 < trend then "text-green-600" else "text-red-600", trend, tl, status⟩

/-- The observable content of the EffectivenessMetrics component. -/
structure EffectivenessView where
  cards : List EffectivenessCardView
  expandedTrend : Option (List (String × ℚ × ℚ × ℚ × ℚ))
deriving DecidableEq

/-- EffectivenessMetrics({cluster, expanded}): displayed data is the constant
`mockEffectivenessData`; the `cluster` prop is never read. -/
def renderEffectivenessMetrics (cluster : String) (expanded : Bool) : EffectivenessView :=
  { cards :=
      [effectivenessCard "OCR Precision" 96.8 "%" 2.1 "improvement" "good",
       effectivenessCard "Answer Faithfulness" 94.2 "%" 1.5 "improvement" "good",
       effectivenessCard "Answer Relevancy" 97.1 "%" 0.8 "improvement" "good",
       effectivenessCard "Contextual Precision" 92.5 "%" (-0.3) "change" "warning"]
    expandedTrend :=
      if expanded then
        some [("00:00", 95.2, 92.8, 96.5, 92.8), ("04:00", 95.8, 93.2, 96.8, 92.9),
              ("08:00", 96.1, 93.6, 96.9, 92.6), ("12:00", 96.5, 94.0, 97.0, 92.4),
              ("16:00", 96.7, 94.1, 97.1, 92.5), ("20:00", 96.9, 94.2, 97.1, 92.6),
              ("23:59", 96.8, 94.2, 97.1, 92.5)]
      else none }

/-- The observable content of the ResourceMetrics component. -/
structure ResourceView where
  gpuVramUsage : ℚ
  cpuUsage : ℚ
  memoryUsage : ℚ
  bottlenecks : List (String × ℚ × ℚ)
  nodeResources : List (String × ℚ × ℚ × ℚ)
deriving DecidableEq

/-- ResourceMetrics({cluster}): displayed data is the constant
`mockResourceData`; the `cluster` prop is never read. -/
def renderResourceMetrics (cluster : String) : ResourceView :=
  { gpuVramUsage := 78.5
    cpuUsage := 62.1
    memoryUsage := 71.3
    bottlenecks :=
      [("SAM (Segment Anything)", 320, 35.2), ("DeepEncoder", 280, 30.8),
       ("CLIP Component", 240, 26.4), ("Compression", 70, 7.6)]
    nodeResources :=
      [("Node-1 (AKS)", 82, 65, 74), ("Node-2 (AKS)", 75, 58, 68),
       ("Node-1 (GKE)", 79, 64, 72), ("Node-2 (GKE)", 77, 61, 70)] }

/-- One point of TimeSeriesChart.jsx's `mockTimeSeriesData`. -/
structure TimeSeriesPoint where
  time : String
  compression : ℚ
  latency : ℚ
  cost : ℚ
  accuracy : ℚ
deriving DecidableEq

/-- The literal 24-hour series of TimeSeriesChart.jsx. -/
def mockTimeSeriesData : List TimeSeriesPoint :=
  [⟨"00:00", 3.8, 1450, 0.0052, 95.2⟩, ⟨"04:00", 3.9, 1380, 0.0048, 95.8⟩,
   ⟨"08:00", 4.0, 1320, 0.0046, 96.1⟩, ⟨"12:00", 4.1, 1280, 0.0045, 96.5⟩,
   ⟨"16:00", 4.2, 1250, 0.0044, 96.7⟩, ⟨"20:00", 4.3, 1240, 0.0043, 96.9⟩,
   ⟨"23:59", 4.2, 1240, 0.0045, 96.8⟩]

/-- The component-local toggle state of TimeSeriesChart. -/
structure SelectedMetrics where
  compression : Bool
  latency : Bool
  cost : Bool
  accuracy : Bool
deriving DecidableEq

/-- The observable content of the TimeSeriesChart component: the plotted
series and which lines are shown. -/
structure TimeSeriesView where
  chartData : List TimeSeriesPoint
  showCompression : Bool
  showLatency : Bool
  showCost : Bool
  showAccuracy : Bool
deriving DecidableEq

/-- TimeSeriesChart({timeRange, cluster}): the chart always plots the
constant mock series; neither prop is read. -/
def renderTimeSeriesChart (timeRange cluster : String) (sel : SelectedMetrics) :
    TimeSeriesView :=
  ⟨mockTimeSeriesData, sel.compression, sel.latency, sel.cost, sel.accuracy⟩

/-! ### Core benchmark engine

The Python core referenced by the repository's documentation
(src/benchmark_orchestrator.py, src/ragas_evaluator.py and the report
generator) is absent from the tree, so the definitions below are modelled
from the specification (§3, §4.3-§4.5, §7). -/

/-- The two pipeline variants (§2, §9: a closed tagged-variant set). -/
inductive Variant
  | compression
  | retrieval
deriving DecidableEq

/-- Numeric encoding of a variant, used for canonical ordering. -/
def variantIdx : Variant → ℕ
  | .compression => 0
  | .retrieval => 1

/-- A question/ground-truth pair attached to a document (§3). -/
structure QAPair where
  question : String
  groundTruth : String
deriving DecidableEq

/-- A dataset document (§3): identifier, source reference, and its QAPairs. -/
structure Document where
  id : ℕ
  source : String
  qaPairs : List QAPair
deriving DecidableEq

/-- A pipeline result (§3): variant tag, per-stage duration map, token
counts, fixed-point cost in micro-USD, and the generated answer. -/
structure PipelineResult where
  variant : Variant
  stageDurations : List (String × ℕ)
  inputTokens : ℕ
  contextTokens : ℕ
  outputTokens : ℕ
  costMicroUsd : ℕ
  answer : String
deriving DecidableEq

/-- End-to-end latency of a result: the sum of its stage durations (§4.2). -/
def PipelineResult.totalMs (r : PipelineResult) : ℕ := sumStages r.stageDurations

/-- A quality score (§3): four component scores in [0,1]. -/
structure QualityScore where
  faithfulness : ℚ
  relevancy : ℚ
  contextPrecision : ℚ
  contextRecall : ℚ
deriving DecidableEq

/-- The derived overall score, always recomputed from the components (§3). -/
def QualityScore.overall (q : QualityScore) : ℚ :=
  weightedOverall q.faithfulness q.relevancy q.contextPrecision q.contextRecall

/-- One benchmark record (§3): one document, one QAPair (by its stable
insertion index), one variant, with telemetry and quality score attached. -/
structure BenchmarkRecord where
  docId : ℕ
  qaIndex : ℕ
  variant : Variant
  result : PipelineResult
  score : QualityScore
deriving DecidableEq

/-- Error taxonomy for per-call failures (§7). -/
inductive ErrKind
  | upstreamUnavailable
  | rateLimited
  | timedOut
  | invalidContext
  | evaluationFailed
deriving DecidableEq

/-- Fatal dataset-level error (§4.4 `EmptyDatasetError`, §8 `DatasetError`). -/
inductive DatasetError
  | emptyDataset
deriving DecidableEq

/-- A recorded partial failure (§7): document id, variant, stage, error kind. -/
structure FailureEntry where
  docId : ℕ
  variant : Variant
  stage : String
  err : ErrKind
deriving DecidableEq

/-- Outcome of running one variant on one document (after the configured
retries): either a result with its quality score, or a stage failure. -/
inductive Outcome
  | ok (r : PipelineResult) (q : QualityScore)
  | fail (stage : String) (e : ErrKind)
deriving DecidableEq

/-- Whether an outcome is a success. -/
def Outcome.isOk : Outcome → Bool
  | .ok _ _ => true
  | .fail _ _ => false

/-- The latency sample an outcome contributes to aggregate statistics:
failures contribute nothing. -/
def Outcome.latencyMs : Outcome → Option ℕ
  | .ok r _ => some r.totalMs
  | .fail _ _ => none

/-- Modelled from the spec: the LoadingDataset validation of the Benchmark
Orchestrator (§4.4; src/benchmark_orchestrator.py is absent from the tree):
every document must have at least one QAPair. -/
def validateDataset (docs : List Document) : Bool :=
  docs.all (fun d => !d.qaPairs.isEmpty)

/-- Identifiers of the documents on which the given variant succeeded. -/
def successDocIds (docs : List Document) (v : Variant)
    (f : ℕ → Variant → Outcome) : List ℕ :=
  (docs.filter (fun d => (f d.id v).isOk)).map (fun d => d.id)

/-- The latency samples entering the given variant's aggregate statistics:
one sample per successful document, none for failures. -/
def latencySamples (docs : List Document) (v : Variant)
    (f : ℕ → Variant → Outcome) : List ℕ :=
  docs.filterMap (fun d => (f d.id v).latencyMs)

/-- The recorded partial-failure entries for the given variant (§7: every
partial failure is retained in the final report). -/
def failureEntries (docs : List Document) (v : Variant)
    (f : ℕ → Variant → Outcome) : List FailureEntry :=
  docs.filterMap (fun d =>
    match f d.id v with
    | .ok _ _ => none
    | .fail st e => some ⟨d.id, v, st, e⟩)

/-- Per-variant statistics surfaced in the final report (§7: attempted vs
successfully scored counts; §4.4: per-variant sample size). -/
structure VariantStats where
  attempted : ℕ
  succeeded : ℕ
  failedCount : ℕ
  meanLatencyMs : Option ℚ
deriving DecidableEq

/-- Mean of a list of natural-number samples; none when there are no
samples (no division by zero, §4.5). -/
def meanOfNats (l : List ℕ) : Option ℚ :=
  if l.length = 0 then none else some ((l.sum : ℚ) / (l.length : ℚ))

/-- The per-variant statistics assembled by the orchestrator. -/
def variantStats (docs : List Document) (v : Variant)
    (f : ℕ → Variant → Outcome) : VariantStats :=
  { attempted := docs.length
    succeeded := (successDocIds docs v f).length
    failedCount := (failureEntries docs v f).length
    meanLatencyMs := meanOfNats (latencySamples docs v f) }

/-- Pair each QAPair with its stable insertion index (§3: insertion order
is stable for reproducible reporting), starting from the given index. -/
def withIdx (i : ℕ) : List QAPair → List (ℕ × QAPair)
  | [] => []
  | qa :: qs => (i, qa) :: withIdx (i + 1) qs

/-- The benchmark records produced for one document and one variant: one
record per QAPair (by insertion index) on success, none on failure. -/
def recordsFor (d : Document) (v : Variant)
    (f : ℕ → Variant → Outcome) : List BenchmarkRecord :=
  match f d.id v with
  | .ok r q => (withIdx 0 d.qaPairs).map (fun iq => ⟨d.id, iq.1, v, r, q⟩)
  | .fail _ _ => []

/-- The final report assembled by a run (§3, §7): records, explicit failure
entries, and per-variant statistics. -/
structure BenchmarkReport where
  records : List BenchmarkRecord
  failures : List FailureEntry
  compressionStats : VariantStats
  retrievalStats : VariantStats
deriving DecidableEq

/-- Modelled from the spec: the Benchmark Orchestrator (§4.4;
src/benchmark_orchestrator.py is absent from the tree).  `f` gives the
outcome of each (document, variant) unit after the configured retries.
Returns the run result together with the log of pipeline invocations
(document id and variant); a dataset validation failure aborts during
LoadingDataset, before any pipeline invocation. -/
def runOrchestrator (docs : List Document) (f : ℕ → Variant → Outcome) :
    Except DatasetError BenchmarkReport × List (ℕ × Variant) :=
  if validateDataset docs then
    (Except.ok
      { records := docs.flatMap
          (fun d => recordsFor d .compression f ++ recordsFor d .retrieval f)
        failures :=
          failureEntries docs .compression f ++ failureEntries docs .retrieval f
        compressionStats := variantStats docs .compression f
        retrievalStats := variantStats docs .retrieval f },
     docs.flatMap (fun d => [(d.id, .compression), (d.id, .retrieval)]))
  else
    (Except.error .emptyDataset, [])

/-! ### Report Aggregator (modelled from §4.5, §5) -/

/-- Canonical minor sort key of a record: QAPair index, then variant. -/
def sortKeyMinor (r : BenchmarkRecord) : ℕ :=
  Nat.pair r.qaIndex (variantIdx r.variant)

/-- Full canonical key of a record (document id paired with the minor key);
records of one run have pairwise distinct keys, one record per
(document, QAPair, variant) triple (§3). -/
def recKey (r : BenchmarkRecord) : ℕ := Nat.pair r.docId (sortKeyMinor r)

/-- Canonical record order used before emitting positional output (§5: sort
by document identifier; ties broken by QAPair index and variant). -/
def recLE (a b : BenchmarkRecord) : Bool :=
  decide (a.docId < b.docId) ||
    (decide (a.docId = b.docId) && decide (sortKeyMinor a ≤ sortKeyMinor b))

/-- The strict version of the canonical record order. -/
def recLT (a b : BenchmarkRecord) : Prop :=
  a.docId < b.docId ∨ (a.docId = b.docId ∧ sortKeyMinor a < sortKeyMinor b)

instance : IsAntisymm BenchmarkRecord recLT := by
  constructor
  intro a b h1 h2
  exfalso
  rcases h1 with h1 | ⟨e1, l1⟩ <;> rcases h2 with h2 | ⟨e2, l2⟩ <;> omega

/-- Mean of a list of rational samples; none when there are no samples. -/
def meanOfRats (l : List ℚ) : Option ℚ :=
  if l.length = 0 then none else some (l.sum / (l.length : ℚ))

/-- Per-metric aggregate for one variant: sample size alongside every
aggregate metric (§4.4), mean latency and mean overall quality. -/
structure AggregateStats where
  sampleSize : ℕ
  meanLatencyMs : Option ℚ
  meanOverall : Option ℚ
deriving DecidableEq

/-- The aggregate statistics of one variant over a record collection. -/
def statsOf (v : Variant) (rs : List BenchmarkRecord) : AggregateStats :=
  let vs := rs.filter (fun r => r.variant == v)
  { sampleSize := vs.length
    meanLatencyMs := meanOfRats (vs.map (fun r => (r.result.totalMs : ℚ)))
    meanOverall := meanOfRats (vs.map (fun r => r.score.overall)) }

/-- Percentage delta of two optional means; unavailable when either mean is
missing or the baseline is zero (§4.5: never divide by zero). -/
def deltaOfMeans : Option ℚ → Option ℚ → Option ℚ
  | some a, some b => if b = 0 then none else some (pctDelta a b)
  | _, _ => none

/-- The aggregated report (§3 BenchmarkReport: records plus derived
comparative statistics). -/
structure AggregatedReport where
  sortedRecords : List BenchmarkRecord
  compression : AggregateStats
  retrieval : AggregateStats
  latencyDeltaPct : Option ℚ
  qualityDeltaPct : Option ℚ
deriving DecidableEq

/-- Modelled from the spec: the Report Aggregator (§4.5, §5; the report
generator source is absent from the tree).  A pure reduction of a record
collection: records are sorted by the canonical key before any positional
output, and per-variant means and percentage deltas are derived. -/
def aggregateReport (rs : List BenchmarkRecord) : AggregatedReport :=
  let c := statsOf .compression rs
  let t := statsOf .retrieval rs
  { sortedRecords := rs.mergeSort recLE
    compression := c
    retrieval := t
    latencyDeltaPct := deltaOfMeans c.meanLatencyMs t.meanLatencyMs
    qualityDeltaPct := deltaOfMeans c.meanOverall t.meanOverall }

/-! ### Quality Evaluator (modelled from §4.3) -/

/-- Split a character sequence at sentence boundaries (full stops). -/
def splitDots : List Char → List (List Char)
  | [] => [[]]
  | c :: cs =>
    if c = '.' then [] :: splitDots cs
    else
      match splitDots cs with
      | [] => [[c]]
      | w :: ws => (c :: w) :: ws

/-- Drop leading and trailing spaces of a character sequence. -/
def trimBlanks (w : List Char) : List Char :=
  ((w.dropWhile (fun c => c = ' ')).reverse.dropWhile (fun c => c = ' ')).reverse

/-- Modelled from the spec: the Quality Evaluator's claim decomposition
(§4.3; src/ragas_evaluator.py is absent from the tree).  The answer is
decomposed into atomic claims by splitting at sentence boundaries, trimming
whitespace and discarding empty claims; the empty answer yields no claims. -/
def atomicClaims (answer : String) : List (List Char) :=
  ((splitDots answer.data).map trimBlanks).filter (fun w => !w.isEmpty)

/-- Modelled from the spec: the faithfulness score (§4.3): each atomic
claim is checked independently by the entailment collaborator `entails`
and the results are averaged; an answer with no claims scores 0, not
undefined. -/
def faithfulnessScore (entails : List Char → Bool) (answer : String) : ℚ :=
  let cs := atomicClaims answer
  if cs.length = 0 then 0
  else (((cs.filter entails).length : ℚ) / (cs.length : ℚ))

/-! ### Concrete instances used by the witness theorems -/

/-- A sample QAPair. -/
def wQa : QAPair := ⟨"What is the main topic?", "Document analysis"⟩

/-- A sample document with one QAPair. -/
def wDocA : Document := ⟨1, "doc_001.jpg", [wQa]⟩

/-- A second sample document. -/
def wDocB : Document := ⟨2, "doc_002.jpg", [⟨"When was it published?", "2024"⟩]⟩

/-- A two-document dataset. -/
def wDocs : List Document := [wDocA, wDocB]

/-- A sample retrieval-variant result. -/
def wResult : PipelineResult :=
  ⟨.retrieval, [("extraction", 850), ("retrieval", 450), ("completion", 1550)],
   1800, 1800, 40, 10800, "The main topic is document analysis."⟩

/-- A sample quality score. -/
def wScore : QualityScore := ⟨1, 1, 1, 1⟩

/-- A sample outcome environment: document 1 times out on the compression
variant; every other unit succeeds. -/
def wOutcome : ℕ → Variant → Outcome := fun did v =>
  match did, v with
  | 1, .compression => .fail "completion" .timedOut
  | _, _ => .ok wResult wScore

/-- A document with no QAPairs. -/
def wEmptyDoc : Document := ⟨3, "doc_003.jpg", []⟩

/-- A dataset containing a document with no QAPairs. -/
def wDocsEmpty : List Document := [wDocA, wEmptyDoc]

/-- A sample compression-variant record. -/
def wRecA : BenchmarkRecord :=
  ⟨1, 0, .compression,
   ⟨.compression, [("extraction", 720), ("compression", 120), ("completion", 400)],
    1800, 450, 40, 4300, "answer"⟩,
   ⟨1, 1, 1, 1⟩⟩

/-- A sample retrieval-variant record. -/
def wRecB : BenchmarkRecord := ⟨2, 0, .retrieval, wResult, wScore⟩

/-! ### Helper lemmas -/

/-- Every run accounts each attempted document as either successfully
scored or explicitly failed. -/
theorem stats_accounting (docs : List Document) (v : Variant)
    (f : ℕ → Variant → Outcome) :
    (variantStats docs v f).attempted
      = (variantStats docs v f).succeeded + (variantStats docs v f).failedCount := by
  simp only [variantStats, successDocIds, failureEntries, List.length_map]
  induction docs with
  | nil => rfl
  | cons d ds ih =>
    cases h : f d.id v with
    | ok r q =>
      simp [List.filter_cons, List.filterMap_cons, h, Outcome.isOk] at ih ⊢
      omega
    | fail st e =>
      simp [List.filter_cons, List.filterMap_cons, h, Outcome.isOk] at ih ⊢
      omega

/-- A document whose outcome is a failure contributes no latency sample:
removing every document with its identifier leaves the sample list
unchanged. -/
theorem latencySamples_filter_ne (docs : List Document) (v : Variant)
    (f : ℕ → Variant → Outcome) (did : ℕ) (hnone : (f did v).latencyMs = none) :
    latencySamples docs v f
      = latencySamples (docs.filter (fun d2 => d2.id != did)) v f := by
  induction docs with
  | nil => rfl
  | cons d ds ih =>
    simp only [latencySamples, List.filterMap_cons, List.filter_cons] at *
    by_cases hid : d.id = did
    · have hb : (d.id != did) = false := by simp [hid]
      rw [hb, hid, hnone]
      exact ih
    · have hb : (d.id != did) = true := by simp [hid]
      rw [hb]
      simp only [reduceIte, List.filterMap_cons]
      cases hlat : (f d.id v).latencyMs with
      | none => exact ih
      | some x => rw [ih]

/-- The canonical record order is transitive. -/
theorem recLE_trans : ∀ a b c : BenchmarkRecord, recLE a b → recLE b c → recLE a c := by
  intro a b c hab hbc
  simp only [recLE, Bool.or_eq_true, Bool.and_eq_true, decide_eq_true_eq] at hab hbc ⊢
  omega

/-- The canonical record order is total. -/
theorem recLE_total : ∀ a b : BenchmarkRecord, recLE a b || recLE b a := by
  intro a b
  simp only [recLE, Bool.or_eq_true, Bool.and_eq_true, decide_eq_true_eq]
  omega

/-- Records with distinct keys that compare `recLE` compare strictly. -/
theorem recLT_of_recLE_of_keyne {a b : BenchmarkRecord} (h : recLE a b)
    (hne : recKey a ≠ recKey b) : recLT a b := by
  simp only [recLE, Bool.or_eq_true, Bool.and_eq_true, decide_eq_true_eq] at h
  rcases h with h | ⟨heq, hle⟩
  · exact Or.inl h
  · refine Or.inr ⟨heq, lt_of_le_of_ne hle ?_⟩
    intro hmeq
    exact hne (by rw [recKey, recKey, heq, hmeq])

/-- Sorting by the canonical order maps any two presentations of the same
record multiset (with pairwise distinct keys) to the same list. -/
theorem mergeSort_canonical (rs1 rs2 : List BenchmarkRecord) (hperm : rs1.Perm rs2)
    (hkeys : (rs1.map recKey).Nodup) :
    rs1.mergeSort recLE = rs2.mergeSort recLE := by
  have hp1 : (rs1.mergeSort recLE).Perm rs1 := List.mergeSort_perm rs1 recLE
  have hp2 : (rs2.mergeSort recLE).Perm rs2 := List.mergeSort_perm rs2 recLE
  have hp : (rs1.mergeSort recLE).Perm (rs2.mergeSort recLE) :=
    hp1.trans (hperm.trans hp2.symm)
  have hne : rs1.Pairwise (fun a b => recKey a ≠ recKey b) := List.pairwise_map.mp hkeys
  have hsymm : ∀ {x y : BenchmarkRecord}, recKey x ≠ recKey y → recKey y ≠ recKey x :=
    fun h => Ne.symm h
  have hneS1 : (rs1.mergeSort recLE).Pairwise (fun a b => recKey a ≠ recKey b) :=
    (List.Perm.pairwise_iff hsymm hp1).mpr hne
  have hneS2 : (rs2.mergeSort recLE).Pairwise (fun a b => recKey a ≠ recKey b) :=
    (List.Perm.pairwise_iff hsymm hp2).mpr ((List.Perm.pairwise_iff hsymm hperm).mp hne)
  have hs1 := List.sorted_mergeSort recLE_trans recLE_total rs1
  have hs2 := List.sorted_mergeSort recLE_trans recLE_total rs2
  have hlt1 : List.Sorted recLT (rs1.mergeSort recLE) :=
    List.Pairwise.imp₂ (fun a b hab hne2 => recLT_of_recLE_of_keyne hab hne2) hs1 hneS1
  have hlt2 : List.Sorted recLT (rs2.mergeSort recLE) :=
    List.Pairwise.imp₂ (fun a b hab hne2 => recLT_of_recLE_of_keyne hab hne2) hs2 hneS2
  exact List.eq_of_perm_of_sorted hp hlt1 hlt2

/-- The mean of a sample list is invariant under permutation. -/
theorem meanOfRats_perm {l1 l2 : List ℚ} (h : l1.Perm l2) :
    meanOfRats l1 = meanOfRats l2 := by
  rw [meanOfRats, meanOfRats, h.length_eq, h.sum_eq]

/-! ### Claim theorems -/

/-- Claim C1: the stored overall quality scores should equal the fixed
weighted sum (0.30, 0.30, 0.20, 0.20) of the stored component scores.  They
do not: for the stored DeepSeek components 94.2/97.1/92.5/91.3 the weighted
sum is 94.15 while the stored overall is 93.8, and for LightOn the weighted
sum is 95.11 while the stored overall is 94.9.  Both stored overalls instead
agree (to one decimal) with the unweighted mean of the four components. -/
theorem c1_overall_score_not_weighted_sum :
    radarRow "Faithfulness" = some ⟨"Faithfulness", 94.2, 95.1⟩
  ∧ radarRow "Relevancy" = some ⟨"Relevancy", 97.1, 96.8⟩
  ∧ radarRow "Precision" = some ⟨"Precision", 92.5, 93.2⟩
  ∧ radarRow "Recall" = some ⟨"Recall", 91.3, 94.5⟩
  ∧ radarRow "Overall" = some ⟨"Overall", 93.8, 94.9⟩
  ∧ weightedOverall 94.2 97.1 92.5 91.3 = 94.15
  ∧ (94.15 : ℚ) ≠ 93.8
  ∧ weightedOverall 95.1 96.8 93.2 94.5 = 95.11
  ∧ (95.11 : ℚ) ≠ 94.9
  ∧ meanOfFour 94.2 97.1 92.5 91.3 = 93.775
  ∧ |(93.775 : ℚ) - 93.8| ≤ 1/20
  ∧ meanOfFour 95.1 96.8 93.2 94.5 = 94.9 := by
  refine ⟨rfl, rfl, rfl, rfl, rfl, ?_, ?_, ?_, ?_, ?_, ?_, ?_⟩
  · norm_num [weightedOverall]
  · norm_num
  · norm_num [weightedOverall]
  · norm_num
  · norm_num [meanOfFour]
  · rw [abs_le]; exact ⟨by norm_num, by norm_num⟩
  · norm_num [meanOfFour]

/-- Claim C2: the sum of the per-stage durations should equal the total
end-to-end duration within 1ms.  The DeepSeek breakdown (720+120+400) and
both dashboard stage maps satisfy this exactly, but the methodology
document's LightOn breakdown (850 OCR + 450 chunking + 550 embedding +
1000 retrieval + 1550 LLM) sums to 4400ms, not within 1ms of the stated
2850ms total. -/
theorem c2_lighton_stage_sum_exceeds_total :
    sumStages deepseekStagesDoc = deepseekTotalMs
  ∧ withinMs (sumStages deepseekStagesDoc) deepseekTotalMs 1
  ∧ sumStages lightonStagesDoc = 4400
  ∧ lightonTotalMs = 2850
  ∧ ¬ withinMs (sumStages lightonStagesDoc) lightonTotalMs 1
  ∧ sumStages deepseekStagesDash = deepseekTotalMs
  ∧ sumStages lightonStagesDash = lightonTotalMs := by decide

/-- Claim C3, counterexample: the reported compression figure does not
equal input token count divided by context token count on the stored data:
the methodology document reports 4.2x alongside 1800 input tokens and 450
context tokens, whose quotient is 4.0 (its own tokens-saved figure 1350 =
1800 − 450 confirms the counts are meant exactly). -/
theorem c3_reported_factor_mismatch :
    tokenCompressionAnalysis.originalTokens / tokenCompressionAnalysis.compressedTokens = 4
  ∧ tokenCompressionAnalysis.reportedFactor = 4.2
  ∧ tokenCompressionAnalysis.reportedFactor ≠
      tokenCompressionAnalysis.originalTokens / tokenCompressionAnalysis.compressedTokens
  ∧ tokenCompressionAnalysis.tokensSavedPerDoc =
      tokenCompressionAnalysis.originalTokens - tokenCompressionAnalysis.compressedTokens := by
  refine ⟨?_, rfl, ?_, ?_⟩ <;> norm_num [tokenCompressionAnalysis]

/-- Claim C3, amended: on every stored compression figure the ratio is at
least 1.0 and the context token count never exceeds the raw input token
count — no expansion is reported — though the reported ratio (4.2) is not
exactly the quotient of the reported token counts (4.0). -/
theorem c3_no_expansion_reported :
    effRow "Compression Ratio" = some ⟨"Compression Ratio", 4.2, 1.0, "x"⟩
  ∧ effRow "Tokens Used" = some ⟨"Tokens Used", 450, 1800, "tokens"⟩
  ∧ 1 ≤ tokenCompressionAnalysis.reportedFactor
  ∧ tokenCompressionAnalysis.compressedTokens ≤ tokenCompressionAnalysis.originalTokens
  ∧ (efficiencyData.filter (fun row => row.metric == "Compression Ratio")).all
      (fun row => decide (1 ≤ row.deepseek) && decide (1 ≤ row.lighton)) = true
  ∧ (450 : ℚ) ≤ 1800 := by
  refine ⟨rfl, rfl, ?_, ?_, ?_, ?_⟩
  · norm_num [tokenCompressionAnalysis]
  · norm_num [tokenCompressionAnalysis]
  · norm_num [efficiencyData]
    decide
  · norm_num

/-- Claim C4, counterexample: the "Difference" printed for the Context
Recall metric is −3.2, which is not the percentage delta (A − B)/B =
(91.3 − 94.5)/94.5 · 100 ≈ −3.39 (the gap exceeds any one-decimal
rounding); it is the percentage-point difference A − B instead. -/
theorem c4_recall_delta_not_relative :
    summaryRow "Context Recall" = some ⟨"Context Recall", 91.3, 94.5, -3.2, .lighton⟩
  ∧ pctDelta 91.3 94.5 ≠ -3.2
  ∧ 1/10 < |(-3.2 : ℚ) - pctDelta 91.3 94.5| := by
  refine ⟨rfl, ?_, ?_⟩
  · norm_num [pctDelta]
  · rw [abs_sub_comm, lt_abs]
    right
    norm_num [pctDelta]

/-- Claim C4, amended: every summary row's winner tag follows the metric's
directionality; the efficiency rows use the percentage delta (A − B)/B —
exactly +320% for compression ratio means 4.2 vs 1.0 (and +300% for the
scenario means 4.0 vs 1.0, with the compression variant as winner) and
−75% for token counts, within one percentage point for latency and cost —
while the quality rows print the percentage-point difference A − B. -/
theorem c4_winners_and_deltas :
    summaryTable.map (fun row => row.winner)
      = summaryTable.map (fun row => dirWinner (directionality row.metric) row.deepseek row.lighton)
  ∧ summaryRow "Compression Ratio" = some ⟨"Compression Ratio", 4.2, 1.0, 320, .deepseek⟩
  ∧ pctDelta 4.2 1.0 = 320
  ∧ pctDelta 4 1 = 300
  ∧ dirWinner .higherBetter 4 1 = .deepseek
  ∧ pctDelta 450 1800 = -75
  ∧ |(-57 : ℚ) - pctDelta 1240 2850| ≤ 1
  ∧ |(-60 : ℚ) - pctDelta 0.0043 0.0108| ≤ 1
  ∧ (summaryTable.filter (fun row => qualityMetricNames.contains row.metric)).map
        (fun row => row.storedDelta)
      = (summaryTable.filter (fun row => qualityMetricNames.contains row.metric)).map
        (fun row => row.deepseek - row.lighton) := by
  refine ⟨?_, rfl, ?_, ?_, ?_, ?_, ?_, ?_, ?_⟩
  · norm_num [summaryTable, dirWinner, directionality]
    decide
  · norm_num [pctDelta]
  · norm_num [pctDelta]
  · norm_num [dirWinner]
  · norm_num [pctDelta]
  · rw [abs_le]; exact ⟨by norm_num [pctDelta], by norm_num [pctDelta]⟩
  · rw [abs_le]; exact ⟨by norm_num [pctDelta], by norm_num [pctDelta]⟩
  · norm_num [summaryTable, qualityMetricNames]
    decide

/-- Claim C5: a failure of one variant on one document (here: the
compression variant, after retries) never aborts the run: the orchestrator
still returns a report; the failure appears as an explicit entry; the
document is not among the variant's successes and contributes no latency
sample to its aggregates; attempted = succeeded + failed is surfaced with
the failure counted; and the same document's successful retrieval-variant
result is still recorded. -/
theorem c5_failure_isolated (docs : List Document) (f : ℕ → Variant → Outcome)
    (d : Document) (hvalid : validateDataset docs = true) (hd : d ∈ docs)
    (st : String) (e : ErrKind) (hfail : f d.id .compression = .fail st e)
    (r : PipelineResult) (q : QualityScore) (hok : f d.id .retrieval = .ok r q) :
    ∃ rep, (runOrchestrator docs f).1 = Except.ok rep
      ∧ (⟨d.id, .compression, st, e⟩ : FailureEntry) ∈ rep.failures
      ∧ d.id ∉ successDocIds docs .compression f
      ∧ latencySamples docs .compression f
          = latencySamples (docs.filter (fun d2 => d2.id != d.id)) .compression f
      ∧ rep.compressionStats.attempted
          = rep.compressionStats.succeeded + rep.compressionStats.failedCount
      ∧ 1 ≤ rep.compressionStats.failedCount
      ∧ ∃ rec, rec ∈ rep.records ∧ rec.docId = d.id ∧ rec.variant = .retrieval
          ∧ rec.result = r ∧ rec.score = q := by
  refine ⟨_, by rw [runOrchestrator, if_pos hvalid], ?_, ?_, ?_, ?_, ?_, ?_⟩
  · exact List.mem_append_left _ (List.mem_filterMap.mpr ⟨d, hd, by rw [hfail]⟩)
  · intro hmem
    rcases List.mem_map.mp hmem with ⟨d2, hd2f, hid⟩
    rcases List.mem_filter.mp hd2f with ⟨hd2, hok2⟩
    rw [hid, hfail] at hok2
    simp [Outcome.isOk] at hok2
  · exact latencySamples_filter_ne docs .compression f d.id (by rw [hfail]; rfl)
  · exact stats_accounting docs .compression f
  · have hmem : (⟨d.id, .compression, st, e⟩ : FailureEntry)
        ∈ failureEntries docs .compression f :=
      List.mem_filterMap.mpr ⟨d, hd, by rw [hfail]⟩
    exact List.length_pos.mpr (List.ne_nil_of_mem hmem)
  · have hne : d.qaPairs ≠ [] := by
      have hall := List.all_eq_true.mp hvalid d hd
      intro hcon
      rw [hcon] at hall
      simp at hall
    cases hqa : d.qaPairs with
    | nil => exact absurd hqa hne
    | cons qa qs =>
      refine ⟨⟨d.id, 0, .retrieval, r, q⟩, ?_, rfl, rfl, rfl, rfl⟩
      refine List.mem_flatMap.mpr ⟨d, hd, List.mem_append_right _ ?_⟩
      rw [recordsFor, hok, hqa]
      exact List.mem_map.mpr ⟨(0, qa), List.mem_cons_self _ _, rfl⟩

/-- Witness for C5 at a concrete two-document dataset in which document 1
times out on the compression variant and succeeds on the retrieval
variant. -/
theorem c5_failure_isolated_witness :
    validateDataset wDocs = true
  ∧ wDocA ∈ wDocs
  ∧ wOutcome wDocA.id .compression = .fail "completion" .timedOut
  ∧ wOutcome wDocA.id .retrieval = .ok wResult wScore
  ∧ (∃ rep, (runOrchestrator wDocs wOutcome).1 = Except.ok rep
      ∧ (⟨wDocA.id, .compression, "completion", .timedOut⟩ : FailureEntry) ∈ rep.failures
      ∧ wDocA.id ∉ successDocIds wDocs .compression wOutcome
      ∧ latencySamples wDocs .compression wOutcome
          = latencySamples (wDocs.filter (fun d2 => d2.id != wDocA.id)) .compression wOutcome
      ∧ rep.compressionStats.attempted
          = rep.compressionStats.succeeded + rep.compressionStats.failedCount
      ∧ 1 ≤ rep.compressionStats.failedCount
      ∧ ∃ rec, rec ∈ rep.records ∧ rec.docId = wDocA.id ∧ rec.variant = .retrieval
          ∧ rec.result = wResult ∧ rec.score = wScore) :=
  ⟨by decide, by decide, rfl, rfl,
   c5_failure_isolated wDocs wOutcome wDocA (by decide) (by decide)
     "completion" ErrKind.timedOut rfl wResult wScore rfl⟩

/-- Claim C6: a dataset containing a document with zero QAPairs makes the
orchestrator fail fast with the dataset error during LoadingDataset, with
no pipeline invocation logged. -/
theorem c6_empty_dataset_fails_fast (docs : List Document)
    (f : ℕ → Variant → Outcome) (d : Document)
    (hd : d ∈ docs) (hempty : d.qaPairs = []) :
    runOrchestrator docs f = (Except.error DatasetError.emptyDataset, []) := by
  have hv : validateDataset docs = false := by
    rw [validateDataset, List.all_eq_false]
    exact ⟨d, hd, by simp [hempty]⟩
  rw [runOrchestrator, hv]
  simp

/-- Witness for C6 at a concrete dataset whose second document has no
QAPairs. -/
theorem c6_empty_dataset_fails_fast_witness :
    wEmptyDoc ∈ wDocsEmpty
  ∧ wEmptyDoc.qaPairs = []
  ∧ runOrchestrator wDocsEmpty wOutcome = (Except.error DatasetError.emptyDataset, []) :=
  ⟨by decide, rfl,
   c6_empty_dataset_fails_fast wDocsEmpty wOutcome wEmptyDoc (by decide) rfl⟩

/-- Claim C7: the Report Aggregator is idempotent and deterministic: two
aggregation runs over the same collection of BenchmarkRecords — in whatever
order the worker pool delivered them — produce identical BenchmarkReports,
provided the records carry pairwise distinct (document, QAPair, variant)
keys, as one record per triple guarantees. -/
theorem c7_aggregator_idempotent (rs1 rs2 : List BenchmarkRecord)
    (hperm : rs1.Perm rs2) (hkeys : (rs1.map recKey).Nodup) :
    aggregateReport rs1 = aggregateReport rs2 := by
  have hstats : ∀ v : Variant, statsOf v rs1 = statsOf v rs2 := by
    intro v
    have hf : (rs1.filter (fun r => r.variant == v)).Perm
        (rs2.filter (fun r => r.variant == v)) := hperm.filter _
    simp only [statsOf]
    rw [hf.length_eq, meanOfRats_perm (hf.map _), meanOfRats_perm (hf.map _)]
  simp only [aggregateReport]
  rw [hstats .compression, hstats .retrieval,
    mergeSort_canonical rs1 rs2 hperm hkeys]

/-- Witness for C7 at a concrete two-record collection presented in both
orders. -/
theorem c7_aggregator_idempotent_witness :
    ([wRecA, wRecB] : List BenchmarkRecord).Perm [wRecB, wRecA]
  ∧ (([wRecA, wRecB] : List BenchmarkRecord).map recKey).Nodup
  ∧ aggregateReport [wRecA, wRecB] = aggregateReport [wRecB, wRecA] :=
  ⟨List.Perm.swap wRecB wRecA [], by decide,
   c7_aggregator_idempotent [wRecA, wRecB] [wRecB, wRecA]
     (List.Perm.swap wRecB wRecA []) (by decide)⟩

/-- Claim C8: the Quality Evaluator decomposes the answer into atomic
claims and averages; the empty answer decomposes into no claims and its
faithfulness score is exactly 0 — defined, with no division by zero —
whatever the entailment checker. -/
theorem c8_empty_answer_scores_zero :
    atomicClaims "" = []
  ∧ ∀ entails : List Char → Bool, faithfulnessScore entails "" = 0 :=
  ⟨rfl, fun entails => rfl⟩

/-- Claim C9: the dashboard components render from a constant mock object
captured once in useState; the `cluster` and `timeRange` props are never
read, so renders under different cluster/time-range selections are
observationally identical in their data. -/
theorem c9_props_unread :
    ∀ (c1 c2 t1 t2 : String) (expanded : Bool) (sel : SelectedMetrics),
      renderEfficiencyMetrics c1 expanded = renderEfficiencyMetrics c2 expanded
    ∧ renderEffectivenessMetrics c1 expanded = renderEffectivenessMetrics c2 expanded
    ∧ renderResourceMetrics c1 = renderResourceMetrics c2
    ∧ renderTimeSeriesChart t1 c1 sel = renderTimeSeriesChart t2 c2 sel := by
  intro c1 c2 t1 t2 expanded sel
  exact ⟨rfl, rfl, rfl, rfl⟩

/-- Claim C10: MetricCard's trend indicator depends only on the sign of the
trend — positive trends render with the red colour and upward icon, others
with the green colour and downward icon, regardless of directionality — so
the token-compression-ratio card, whose positive trend +5.3 improves a
higher-is-better metric, is rendered red. -/
theorem c10_trend_sign_only :
    (∀ t : ℚ, 0 < t →
        metricCardTrendColor t = "text-red-600" ∧ metricCardTrendIcon t = .trendingUp)
  ∧ (∀ t : ℚ, t ≤ 0 →
        metricCardTrendColor t = "text-green-600" ∧ metricCardTrendIcon t = .trendingDown)
  ∧ mockEfficiencyData.tokenCompressionTrend = 5.3
  ∧ directionality "Compression Ratio" = .higherBetter
  ∧ metricCardTrendColor mockEfficiencyData.tokenCompressionTrend = "text-red-600"
  ∧ (∀ (cluster : String) (expanded : Bool),
      (renderEfficiencyMetrics cluster expanded).cards.map
          (fun card => (card.label, card.trendColor))
        = [("Token Compression Ratio",
              metricCardTrendColor mockEfficiencyData.tokenCompressionTrend),
           ("End-to-End Latency", metricCardTrendColor mockEfficiencyData.latencyTrend),
           ("Cost per Document", metricCardTrendColor mockEfficiencyData.costTrend)]) := by
  refine ⟨?_, ?_, rfl, rfl, ?_, fun cluster expanded => rfl⟩
  · intro t ht
    exact ⟨by rw [metricCardTrendColor, if_pos ht], by rw [metricCardTrendIcon, if_pos ht]⟩
  · intro t ht
    have hnot : ¬ (0 : ℚ) < t := not_lt.mpr ht
    exact ⟨by rw [metricCardTrendColor, if_neg hnot], by rw [metricCardTrendIcon, if_neg hnot]⟩
  · rw [metricCardTrendColor, if_pos]
    show (0 : ℚ) < mockEfficiencyData.tokenCompressionTrend
    norm_num [mockEfficiencyData]

/-- Witness for C10 at the concrete trends of the mock data (+5.3 and
−8.2). -/
theorem c10_trend_sign_only_witness :
    metricCardTrendColor 5.3 = "text-red-600"
  ∧ metricCardTrendColor (-8.2) = "text-green-600" :=
  ⟨(c10_trend_sign_only.1 5.3 (by norm_num)).1,
   (c10_trend_sign_only.2.1 (-8.2) (by norm_num)).1⟩

end AIOCR
